import Mathlib

set_option maxRecDepth 100000

/-!
Verification of the authentication and device-command layer of the
homebridge-legrand-radiant plugin, shallowly embedded in Lean 4.

The embedding covers:
  * `LegrandAuth` (src/legrandAuth.ts): the token cache in
    `getAccessToken`, the refresh fallback, the PKCE generator
    (`generateCodeVerifier` / `generateCodeChallenge`, with a full
    executable SHA-256 and base64url), and the error handling of the
    credential-submission step (`submitCredentials`) including its
    cookie-jar merge.
  * `LegrandCloudApi` (src/legrandCloudApi.ts): `ensureAuthenticated`,
    `getAccessToken`, `setState`, `setBrightness` and `makeRequest`.
  * `LegrandCloudPlatform` (src/cloudPlatform.ts): the polling loop
    (`startPolling` / `pollDeviceStatus`).

Network exchanges are modelled by passing their outcomes as explicit
arguments (an `Except` or an `HttpOutcome`); JavaScript `null`able fields
become `Option`, epoch-millisecond clocks become `Int`, and the
single-threaded Node.js event loop is modelled as an interleaving of
atomic segments between `await` points.
-/

namespace LegrandRadiant

/-- Settlement values (`Except`) need decidable equality so that runs of
the model can be checked on concrete inputs. -/
instance {ε α : Type} [DecidableEq ε] [DecidableEq α] :
    DecidableEq (Except ε α) := fun x y =>
  match x, y with
  | Except.ok a, Except.ok b =>
    if h : a = b then Decidable.isTrue (by rw [h])
    else Decidable.isFalse (by simp [h])
  | Except.error a, Except.error b =>
    if h : a = b then Decidable.isTrue (by rw [h])
    else Decidable.isFalse (by simp [h])
  | Except.ok _, Except.error _ => Decidable.isFalse (by simp)
  | Except.error _, Except.ok _ => Decidable.isFalse (by simp)

/-! ## LegrandCloudApi.setBrightness (src/legrandCloudApi.ts lines 209-240)

`const clampedLevel = Math.max(0, Math.min(100, Math.round(level)));`
`const state = clampedLevel > 0 ? 'on' : 'off';`
For an integer `level`, `Math.round(level) = level`. -/

/-- The clamped level transmitted by `setBrightness`:
`Math.max(0, Math.min(100, Math.round(level)))` for an integer level. -/
def clampedLevel (level : Int) : Int :=
  max 0 (min 100 level)

/-- The `(state, level)` pair placed in the `setState` command body by
`setBrightness`: `state = clampedLevel > 0 ? 'on' : 'off'`. -/
def setBrightnessCommand (level : Int) : String × Int :=
  let c := clampedLevel level
  (if c > 0 then "on" else "off", c)

/-! ## Cookie jar (src/legrandAuth.ts lines 596-611 and 587)

The jar is a list of `"name=value"` strings.  For each raw `Set-Cookie`
header, `cookie.split(';')[0]` is the pair, `cookiePart.split('=')[0]`
its name; an entry with the same name is overwritten in place
(`updatedCookies[existingIndex] = cookiePart`), otherwise the pair is
appended (`updatedCookies.push(cookiePart)`).  Transmission joins the
jar with `cookies.join('; ')`. -/

/-- The characters of `s` before the first occurrence of the character
`sep` (all of `s` when `sep` does not occur). -/
def takeBeforeChar (sep : Char) : List Char → List Char
  | [] => []
  | c :: cs => if c = sep then [] else c :: takeBeforeChar sep cs

/-- `s.split(sep)[0]` of JavaScript for a one-character separator: the
part of `s` before the first occurrence of `sep`. -/
def firstSplitPart (sep : Char) (s : String) : String :=
  String.mk (takeBeforeChar sep s.data)

/-- Whether the character list `s` begins with `pat` —
JavaScript `s.startsWith(pat)`. -/
def charsStartWith : List Char → List Char → Bool
  | _, [] => true
  | [], _ :: _ => false
  | c :: cs, p :: ps => c = p && charsStartWith cs ps

/-- JavaScript `s.startsWith(pat)` on strings. -/
def strStartsWith (s pat : String) : Bool :=
  charsStartWith s.data pat.data

/-- Index of the first jar entry satisfying `p` — `Array.findIndex`. -/
def findIndex (p : String → Bool) : List String → Option Nat
  | [] => none
  | c :: cs =>
    if p c then some 0
    else match findIndex p cs with
      | some i => some (i + 1)
      | none => none

/-- Merge one raw `Set-Cookie` header into the jar (the loop body of
lines 600-610): `cookiePart = cookie.split(';')[0]`, `cookieName =
cookiePart.split('=')[0]`; an entry starting with `cookieName + '='` is
overwritten in place, otherwise the pair is appended. -/
def mergeCookie (jar : List String) (header : String) : List String :=
  let cookiePart := firstSplitPart ';' header
  let cookieName := firstSplitPart '=' cookiePart
  match findIndex (fun c => strStartsWith c (cookieName ++ "=")) jar with
  | some i => jar.set i cookiePart
  | none => jar ++ [cookiePart]

/-- Merge a sequence of raw `Set-Cookie` headers into an existing jar
(the `for (const cookie of setCookieHeaders)` loop). -/
def mergeCookies (jar : List String) (headers : List String) : List String :=
  headers.foldl mergeCookie jar

/-- `cookies.join('; ')` — the serialization used on the `Cookie`
request header. -/
def serializeJar : List String → String
  | [] => ""
  | [c] => c
  | c :: rest => c ++ "; " ++ serializeJar rest

/-! ## LegrandCloudApi authentication state
(src/legrandCloudApi.ts lines 79-92, 309-358)

`manualToken : string | null`, `manualTokenExpiry : number`, and
`auth : LegrandAuth | null` (non-null exactly when both `config.email`
and `config.password` were provided). -/

/-- Outcome of `ensureAuthenticated` (lines 309-328): `Except.ok ()`
when the function returns, `Except.error` when it throws.  `hasAuth`
is `this.auth !== null`; `authOutcome` is the outcome of
`this.auth.getAccessToken()` when it is consulted. -/
def ensureAuthenticated (hasAuth : Bool) (manualToken : Option String)
    (manualTokenExpiry now : Int) (authOutcome : Except String String) :
    Except String Unit :=
  if manualToken.isSome ∧ now < manualTokenExpiry - 60000 then
    Except.ok ()
  else if hasAuth then
    match authOutcome with
    | Except.ok _ => Except.ok ()
    | Except.error e => Except.error e
  else if manualToken.isNone then
    Except.error ("No authentication available. " ++
      "Please provide email/password in config or set an access token manually.")
  else
    Except.ok ()

/-- `LegrandCloudApi.getAccessToken` (lines 333-343): the token put on
the `Authorization` header by `makeRequest`. -/
def apiGetAccessToken (hasAuth : Bool) (authOutcome : Except String String)
    (manualToken : Option String) : Except String String :=
  if hasAuth then
    authOutcome
  else
    match manualToken with
    | some t => Except.ok t
    | none => Except.error "No access token available"

/-! ## LegrandCloudApi.makeRequest and setState
(src/legrandCloudApi.ts lines 177-204 and 363-430) -/

/-- The network-visible outcome of one HTTPS exchange: either a response
with a status code and body text, or a transport failure (the
`req.on('error')` path). -/
inductive HttpOutcome where
  | response (status : Nat) (data : String)
  | networkFailure (msg : String)
deriving DecidableEq, Repr

/-- `makeRequest` (lines 363-430): resolves the body text on any 2xx
status (the body is parsed as JSON, or replaced by `{}` when unparsable
— it is resolved either way, never inspected here), rejects with
`HTTP status: data` otherwise, and rejects with the transport error on
network failure.  The `await this.getAccessToken()` on its first line
can itself reject. -/
def makeRequest (tokenOutcome : Except String String) (out : HttpOutcome) :
    Except String String :=
  match tokenOutcome with
  | Except.error e => Except.error e
  | Except.ok _ =>
    match out with
    | HttpOutcome.networkFailure m => Except.error m
    | HttpOutcome.response status data =>
      if 200 ≤ status ∧ status < 300 then Except.ok data
      else Except.error ("HTTP " ++ toString status ++ ": " ++ data)

/-- `setState` (lines 177-204): `await this.ensureAuthenticated()` runs
outside the `try`, so its rejection propagates; the `try { makeRequest
... return true } catch { return false }` turns every `makeRequest`
rejection into a resolved `false` and never looks at the response
body. -/
def setState (ensureOutcome : Except String Unit)
    (tokenOutcome : Except String String) (out : HttpOutcome) :
    Except String Bool :=
  match ensureOutcome with
  | Except.error e => Except.error e
  | Except.ok _ =>
    match makeRequest tokenOutcome out with
    | Except.ok _ => Except.ok true
    | Except.error _ => Except.ok false

/-- Whether `makeRequest` resolves: the token was obtained, no transport
failure, and the status is 2xx. -/
def requestSucceeds (tokenOutcome : Except String String) (out : HttpOutcome) :
    Bool :=
  match tokenOutcome, out with
  | Except.ok _, HttpOutcome.response status _ =>
    decide (200 ≤ status ∧ status < 300)
  | _, _ => false

/-! ## Polling loop (src/cloudPlatform.ts lines 80-142)

`startPolling` stores a `setInterval` handle in `this.pollingInterval`;
`stopPolling` is the only place that calls `clearInterval` and nulls the
handle.  `pollDeviceStatus` iterates over the registered handlers; a
caught error whose message contains `'401'` or `'auth'` logs and
`return`s from the function (the comment reads `// Stop polling if auth
fails`), any other error logs a warning and the loop continues with the
next device. -/

/-- What `this.cloudApi.getStatus(deviceId)` produced for one device
during a poll iteration. -/
inductive PollResult where
  | stateOk (isOn : Bool) (brightness : Option Int)
  | noState
  | errorMsg (msg : String)
deriving DecidableEq, Repr

/-- Whether `t` occurs in the character list `s`. -/
def charsContain (t : List Char) : List Char → Bool
  | [] => t.isEmpty
  | c :: cs => charsStartWith (c :: cs) t || charsContain t cs

/-- JavaScript `s.includes(t)`. -/
def strContains (s t : String) : Bool :=
  charsContain t.data s.data

/-- The credential-error test of line 134:
`errorMessage.includes('401') || errorMessage.includes('auth')`. -/
def isCredentialError (msg : String) : Bool :=
  strContains msg "401" || strContains msg "auth"

/-- Platform state relevant to the polling loop: whether
`this.pollingInterval` currently holds a live `setInterval` handle. -/
structure PlatformState where
  pollingActive : Bool
deriving DecidableEq, Repr

/-- One run of `pollDeviceStatus` (lines 114-142) over the handler map.
Returns the platform state afterwards together with the list of device
ids the loop actually polled.  The body mutates only the accessory
handlers: no branch of the function touches `this.pollingInterval`, in
particular the credential-error branch merely `return`s, so the state
passes through unchanged. -/
def pollDeviceStatus (ps : PlatformState)
    (devices : List (String × PollResult)) : PlatformState × List String :=
  match devices with
  | [] => (ps, [])
  | (deviceId, res) :: rest =>
    match res with
    | PollResult.errorMsg msg =>
      if isCredentialError msg then
        (ps, [deviceId])
      else
        let (ps', polled) := pollDeviceStatus ps rest
        (ps', deviceId :: polled)
    | _ =>
      let (ps', polled) := pollDeviceStatus ps rest
      (ps', deviceId :: polled)

/-- `stopPolling` (lines 104-109): clears the interval. -/
def stopPolling (_ps : PlatformState) : PlatformState :=
  { pollingActive := false }

/-- Whether the `setInterval` timer fires another `pollDeviceStatus`
iteration at the next interval tick: it does exactly while the handle
is live. -/
def nextTickPolls (ps : PlatformState) : Bool :=
  ps.pollingActive

/-! ## LegrandAuth.submitCredentials error handling
(src/legrandAuth.ts lines 566-637)

On `statusCode === 200` the body is `JSON.parse`d; `json.status ===
'400' || json.message` rejects with `Login failed: ${json.message ||
'Invalid credentials'}`; an unparsable body resolves.  A non-200 status
rejects with `Credential submission failed: ${statusCode} - ${data}`.
A transport failure rejects through `req.on('error', reject)`. -/

/-- The result of `JSON.parse(data)` as far as lines 618-622 inspect it:
either the parse threw, or it yielded an object whose `status` and
`message` fields are the given optional strings. -/
inductive ParsedBody where
  | notJson
  | json (status : Option String) (message : Option String)
deriving DecidableEq, Repr

/-- JavaScript truthiness of an optional string field. -/
def jsTruthy : Option String → Bool
  | none => false
  | some s => s ≠ ""

/-- `json.message || 'Invalid credentials'`. -/
def messageOrDefault (message : Option String) : String :=
  match message with
  | some m => if m ≠ "" then m else "Invalid credentials"
  | none => "Invalid credentials"

/-- How `submitCredentials` settles its promise, separating the two
`reject` sites inside the response handler (a rejection asserted by the
identity provider, `credentialError`) from the transport-failure path
(`networkError`). -/
inductive SubmitOutcome where
  | ok (cookies : List String)
  | credentialError (msg : String)
  | networkError (msg : String)
deriving DecidableEq, Repr

/-- The settlement of `submitCredentials` (lines 613-630) given the
response status, raw body text, its parse, and the merged cookie jar. -/
def submitCredentialsOutcome (statusCode : Nat) (data : String)
    (parsed : ParsedBody) (updatedCookies : List String) : SubmitOutcome :=
  if statusCode = 200 then
    match parsed with
    | ParsedBody.json status message =>
      if status = some "400" || jsTruthy message then
        SubmitOutcome.credentialError ("Login failed: " ++ messageOrDefault message)
      else
        SubmitOutcome.ok updatedCookies
    | ParsedBody.notJson => SubmitOutcome.ok updatedCookies
  else
    SubmitOutcome.credentialError
      ("Credential submission failed: " ++ toString statusCode ++ " - " ++ data)

/-! ## LegrandAuth token cache (src/legrandAuth.ts lines 360-485)

Fields `accessToken : string | null`, `refreshToken : string | null`,
`tokenExpiry : number` (epoch milliseconds).  The outcomes of
`postToTokenEndpoint` (for the refresh request) and of the whole
four-step login choreography are passed in as explicit `Except`
arguments; `Date.now()` is the explicit `now`. -/

/-- The parsed JSON of a successful token-endpoint response
(`TokenResponse`, lines 348-353). -/
structure TokenResponse where
  access_token : String
  refresh_token : Option String
  expires_in : Int
deriving DecidableEq, Repr

/-- Mutable state of a `LegrandAuth` instance. -/
structure AuthState where
  accessToken : Option String
  refreshToken : Option String
  tokenExpiry : Int
deriving DecidableEq, Repr

/-- `refreshAccessToken` (lines 464-485): throws when no refresh token
is held, otherwise POSTs the refresh grant and on success stores
`access_token`, `tokens.refresh_token || this.refreshToken` (a response
omitting `refresh_token` keeps the old one), and
`Date.now() + expires_in * 1000`.  On a failed POST nothing is
mutated. -/
def refreshAccessToken (st : AuthState) (now : Int)
    (refreshOutcome : Except String TokenResponse) :
    Except String AuthState :=
  match st.refreshToken with
  | none => Except.error "No refresh token available"
  | some rt =>
    match refreshOutcome with
    | Except.error e => Except.error e
    | Except.ok tokens =>
      Except.ok
        { accessToken := some tokens.access_token
          refreshToken := some (tokens.refresh_token.getD rt)
          tokenExpiry := now + tokens.expires_in * 1000 }

/-- `authenticate` (lines 421-459): throws when email or password is
missing; otherwise runs the four-step choreography (abstracted here as
`choreographyOutcome`) and on success stores `access_token`,
`tokens.refresh_token || null` and `Date.now() + expires_in * 1000`.
A thrown choreography error is re-thrown and nothing is mutated. -/
def authenticate (email password : String) (now : Int)
    (choreographyOutcome : Except String TokenResponse) :
    Except String AuthState :=
  if email = "" ∨ password = "" then
    Except.error "Email and password are required for authentication"
  else
    match choreographyOutcome with
    | Except.error e => Except.error e
    | Except.ok tokens =>
      Except.ok
        { accessToken := some tokens.access_token
          refreshToken := tokens.refresh_token
          tokenExpiry := now + tokens.expires_in * 1000 }

/-- The network attempts `getAccessToken` can start. -/
inductive NetAction where
  | refreshCall
  | loginChoreography
deriving DecidableEq, Repr

/-- `getAccessToken` (lines 374-393), returning its settlement, the
network attempts made in order, and the state afterwards.

Line 376: `if (this.accessToken && Date.now() < this.tokenExpiry -
60000) return this.accessToken;` — the cache hit, no network.
Lines 381-388: with a refresh token, `try { await
this.refreshAccessToken(); return this.accessToken!; } catch { log.warn
}` — a refresh failure is swallowed.  Lines 391-392: `await
this.authenticate(); return this.accessToken!;` — an authentication
failure propagates. -/
def getAccessToken (email password : String) (st : AuthState) (now : Int)
    (refreshOutcome choreographyOutcome : Except String TokenResponse) :
    Except String String × List NetAction × AuthState :=
  if st.accessToken.isSome ∧ now < st.tokenExpiry - 60000 then
    (Except.ok (st.accessToken.getD ""), [], st)
  else
    let viaRefresh : Option (Except String String × List NetAction × AuthState) :=
      match st.refreshToken with
      | some _ =>
        match refreshAccessToken st now refreshOutcome with
        | Except.ok st' =>
          some (Except.ok (st'.accessToken.getD ""), [NetAction.refreshCall], st')
        | Except.error _ => none
      | none => none
    match viaRefresh with
    | some r => r
    | none =>
      let before : List NetAction :=
        if st.refreshToken.isSome then [NetAction.refreshCall] else []
      match authenticate email password now choreographyOutcome with
      | Except.ok st' =>
        (Except.ok (st'.accessToken.getD ""),
          before ++ [NetAction.loginChoreography], st')
      | Except.error e =>
        (Except.error e,
          before ++
            (if email = "" ∨ password = "" then []
             else [NetAction.loginChoreography]), st)

/-- `setTokens` (lines 398-402): the manual override, storing the token
with `refreshToken || null` and `Date.now() + expiresIn * 1000`. -/
def setTokens (accessToken : String) (refreshToken : Option String)
    (expiresIn : Int) (now : Int) : AuthState :=
  { accessToken := some accessToken
    refreshToken := refreshToken
    tokenExpiry := now + expiresIn * 1000 }

/-! ## PKCE generator (src/legrandAuth.ts lines 765-774)

`generateCodeVerifier` is `crypto.randomBytes(32).toString('base64url')`
— the verifier the rest of the code handles is the base64url *string*.
`generateCodeChallenge(verifier)` is
`crypto.createHash('sha256').update(verifier).digest('base64url')` —
Node hashes the UTF-8 bytes of the verifier string (which for a
base64url string are its ASCII bytes).

The embedding implements SHA-256 (FIPS 180-4) and unpadded base64url as
executable functions over byte lists (`Nat` values below 256). -/

/-- 2^32, the modulus of SHA-256 word arithmetic. -/
def M32 : Nat := 4294967296

/-- Right rotation of a 32-bit word. -/
def rotr32 (n x : Nat) : Nat :=
  ((x >>> n) ||| (x <<< (32 - n))) % M32

/-- SHA-256 `Ch(x,y,z)`; `x ^^^ (M32 - 1)` is 32-bit complement. -/
def ch32 (x y z : Nat) : Nat :=
  (x &&& y) ^^^ ((x ^^^ (M32 - 1)) &&& z)

/-- SHA-256 `Maj(x,y,z)`. -/
def maj32 (x y z : Nat) : Nat :=
  (x &&& y) ^^^ (x &&& z) ^^^ (y &&& z)

/-- SHA-256 Σ₀. -/
def bigSigma0 (x : Nat) : Nat := rotr32 2 x ^^^ rotr32 13 x ^^^ rotr32 22 x

/-- SHA-256 Σ₁. -/
def bigSigma1 (x : Nat) : Nat := rotr32 6 x ^^^ rotr32 11 x ^^^ rotr32 25 x

/-- SHA-256 σ₀. -/
def smallSigma0 (x : Nat) : Nat := rotr32 7 x ^^^ rotr32 18 x ^^^ (x >>> 3)

/-- SHA-256 σ₁. -/
def smallSigma1 (x : Nat) : Nat := rotr32 17 x ^^^ rotr32 19 x ^^^ (x >>> 10)

/-- Largest `r` in `[lo, hi)` with `r ^ k ≤ target`, by fuelled binary
search (invariant: `lo ^ k ≤ target < hi ^ k`). -/
def searchRoot (k target : Nat) : Nat → Nat → Nat → Nat
  | 0, lo, _ => lo
  | fuel + 1, lo, hi =>
    if hi ≤ lo + 1 then lo
    else
      let mid := (lo + hi) / 2
      if mid ^ k ≤ target then searchRoot k target fuel mid hi
      else searchRoot k target fuel lo mid

/-- The first 32 bits of the fractional part of the `k`-th root of `p`:
`floor(p ^ (1/k) * 2 ^ 32) mod 2 ^ 32`. -/
def fracRootWord (k p : Nat) : Nat :=
  searchRoot k (p * 2 ^ (32 * k)) 64 0 (2 ^ 40) % M32

/-- The first 64 primes. -/
def first64Primes : List Nat :=
  [2, 3, 5, 7, 11, 13, 17, 19, 23, 29, 31, 37, 41, 43, 47, 53,
   59, 61, 67, 71, 73, 79, 83, 89, 97, 101, 103, 107, 109, 113, 127, 131,
   137, 139, 149, 151, 157, 163, 167, 173, 179, 181, 191, 193, 197, 199, 211, 223,
   227, 229, 233, 239, 241, 251, 257, 263, 269, 271, 277, 281, 283, 293, 307, 311]

/-- The 64 SHA-256 round constants: the fractional parts of the cube
roots of the first 64 primes (FIPS 180-4 section 4.2.2). -/
def sha256K : List Nat :=
  first64Primes.map (fracRootWord 3)

/-- The SHA-256 initial hash value: the fractional parts of the square
roots of the first 8 primes (FIPS 180-4 section 5.3.3). -/
def sha256H0 : List Nat :=
  (first64Primes.take 8).map (fracRootWord 2)

/-- The 8-byte big-endian encoding of the message bit length. -/
def lengthBytes (n : Nat) : List Nat :=
  [(n >>> 56) % 256, (n >>> 48) % 256, (n >>> 40) % 256, (n >>> 32) % 256,
   (n >>> 24) % 256, (n >>> 16) % 256, (n >>> 8) % 256, n % 256]

/-- SHA-256 padding: append `0x80`, zeros to 56 mod 64, and the bit
length. -/
def padMessage (msg : List Nat) : List Nat :=
  let L := msg.length
  let z := (64 - ((L + 9) % 64)) % 64
  msg ++ [0x80] ++ List.replicate z 0 ++ lengthBytes (8 * L)

/-- Big-endian 32-bit words from a byte list (whose length is a
multiple of 4 after padding). -/
def bytesToWords : List Nat → List Nat
  | a :: b :: c :: d :: rest =>
    (((a * 256 + b) * 256 + c) * 256 + d) :: bytesToWords rest
  | _ => []

/-- Big-endian bytes of one 32-bit word. -/
def wordBytes (w : Nat) : List Nat :=
  [(w >>> 24) % 256, (w >>> 16) % 256, (w >>> 8) % 256, w % 256]

/-- Split a word list into 16-word blocks (the padded message is a
multiple of 16 words; a ragged tail cannot occur). -/
def chunk16 : List Nat → List (List Nat)
  | a1 :: a2 :: a3 :: a4 :: a5 :: a6 :: a7 :: a8 ::
    a9 :: a10 :: a11 :: a12 :: a13 :: a14 :: a15 :: a16 :: rest =>
    [a1, a2, a3, a4, a5, a6, a7, a8,
     a9, a10, a11, a12, a13, a14, a15, a16] :: chunk16 rest
  | _ => []

/-- Extend a 16-word block to the 64-word message schedule. -/
def extendSchedule (block : List Nat) : List Nat :=
  (List.range 48).foldl
    (fun acc _ =>
      let n := acc.length
      let word := (smallSigma1 (acc.getD (n - 2) 0) + acc.getD (n - 7) 0 +
        smallSigma0 (acc.getD (n - 15) 0) + acc.getD (n - 16) 0) % M32
      acc ++ [word])
    block

/-- One SHA-256 compression round on the eight working variables. -/
def roundStep (w k : Nat) (s : List Nat) : List Nat :=
  let a := s.getD 0 0
  let b := s.getD 1 0
  let c := s.getD 2 0
  let d := s.getD 3 0
  let e := s.getD 4 0
  let f := s.getD 5 0
  let g := s.getD 6 0
  let h := s.getD 7 0
  let t1 := (h + bigSigma1 e + ch32 e f g + k + w) % M32
  let t2 := (bigSigma0 a + maj32 a b c) % M32
  [(t1 + t2) % M32, a, b, c, (d + t1) % M32, e, f, g]

/-- Compress one 16-word block into the running hash value. -/
def compressBlock (hv : List Nat) (block : List Nat) : List Nat :=
  let s := (List.zip (extendSchedule block) sha256K).foldl
    (fun s wk => roundStep wk.1 wk.2 s) hv
  List.zipWith (fun x y => (x + y) % M32) hv s

/-- SHA-256 of a byte list, as a 32-byte list. -/
def sha256 (msg : List Nat) : List Nat :=
  let hv := (chunk16 (bytesToWords (padMessage msg))).foldl compressBlock sha256H0
  hv.foldr (fun w acc => wordBytes w ++ acc) []

/-- The base64url alphabet. -/
def base64urlAlphabet : List Char :=
  "ABCDEFGHIJKLMNOPQRSTUVWXYZabcdefghijklmnopqrstuvwxyz0123456789-_".toList

/-- The base64url digit for a 6-bit value. -/
def b64Char (n : Nat) : Char :=
  base64urlAlphabet.getD n 'A'

/-- Unpadded base64url of a byte list — Node's
`Buffer.toString('base64url')`. -/
def base64urlNoPad : List Nat → String
  | [] => ""
  | [a] => String.mk [b64Char (a >>> 2), b64Char ((a % 4) <<< 4)]
  | [a, b] => String.mk [b64Char (a >>> 2),
      b64Char (((a % 4) <<< 4) ||| (b >>> 4)), b64Char ((b % 16) <<< 2)]
  | a :: b :: c :: rest =>
    String.mk [b64Char (a >>> 2), b64Char (((a % 4) <<< 4) ||| (b >>> 4)),
      b64Char (((b % 16) <<< 2) ||| (c >>> 6)), b64Char (c % 64)] ++
      base64urlNoPad rest

/-- The bytes Node hashes for a string input to `hash.update` (UTF-8;
for the ASCII strings produced by base64url this is the code-point
list). -/
def asciiBytes (s : String) : List Nat :=
  s.toList.map Char.toNat

/-- `generateCodeVerifier` (lines 765-767) with the 32 random bytes of
`crypto.randomBytes(32)` made explicit: the verifier string is their
unpadded base64url. -/
def generateCodeVerifier (randomBytes : List Nat) : String :=
  base64urlNoPad randomBytes

/-- `generateCodeChallenge` (lines 772-774):
`createHash('sha256').update(verifier).digest('base64url')` — the
SHA-256 of the verifier *string's* bytes, base64url encoded. -/
def generateCodeChallenge (verifier : String) : String :=
  base64urlNoPad (sha256 (asciiBytes verifier))

/-- The challenge the specification asserts: the base64url SHA-256
digest of the verifier's original 32 random bytes (written from the
spec text, for comparison with `generateCodeChallenge`). -/
def specChallengeFromRawBytes (verifierBytes : List Nat) : String :=
  base64urlNoPad (sha256 verifierBytes)

/-! ## Concurrent calls to getAccessToken

Node.js runs `async` bodies as atomic segments between `await` points,
so two overlapping `getAccessToken()` calls interleave at exactly those
points.  Per the source (lines 374-393) a call has at most two
suspension points: the refresh POST inside `refreshAccessToken`, and
the choreography network inside `authenticate`.  The instance fields
(`accessToken`, `refreshToken`, `tokenExpiry`) are the shared state;
`authRuns` counts how many times `authenticate()` has begun its login
choreography. -/

/-- Where one `getAccessToken()` call stands. -/
inductive TaskPC where
  | ready
  | refreshWait
  | choreographyWait
  | finished (result : Except String String)
deriving DecidableEq, Repr

/-- The `LegrandAuth` fields plus the choreography-run counter. -/
structure SharedState where
  auth : AuthState
  authRuns : Nat
deriving DecidableEq, Repr

/-- The network outcomes destined for one task's own requests. -/
structure TaskEnv where
  refreshOutcome : Except String TokenResponse
  choreographyOutcome : Except String TokenResponse
deriving DecidableEq, Repr

/-- One atomic segment of `getAccessToken` for one task.

`ready`: the synchronous prefix — the cache check of line 376, then
either return, or start the refresh POST (suspend), or enter
`authenticate` whose credential check runs synchronously before its
first network `await`.  `refreshWait`: the refresh POST settles; a
success applies the mutations of lines 480-482 and returns, a failure
is swallowed (line 386) and `authenticate` begins in the same
continuation.  `choreographyWait`: the choreography settles; a success
applies the mutations of lines 450-452 and returns the new token, a
failure re-throws leaving the fields untouched. -/
def stepTask (email password : String) (now : Int) (env : TaskEnv)
    (sh : SharedState) (pc : TaskPC) : SharedState × TaskPC :=
  match pc with
  | TaskPC.ready =>
    if sh.auth.accessToken.isSome ∧ now < sh.auth.tokenExpiry - 60000 then
      (sh, TaskPC.finished (Except.ok (sh.auth.accessToken.getD "")))
    else if sh.auth.refreshToken.isSome then
      (sh, TaskPC.refreshWait)
    else if email = "" ∨ password = "" then
      (sh, TaskPC.finished
        (Except.error "Email and password are required for authentication"))
    else
      ({ sh with authRuns := sh.authRuns + 1 }, TaskPC.choreographyWait)
  | TaskPC.refreshWait =>
    match refreshAccessToken sh.auth now env.refreshOutcome with
    | Except.ok st' =>
      ({ sh with auth := st' },
        TaskPC.finished (Except.ok (st'.accessToken.getD "")))
    | Except.error _ =>
      if email = "" ∨ password = "" then
        (sh, TaskPC.finished
          (Except.error "Email and password are required for authentication"))
      else
        ({ sh with authRuns := sh.authRuns + 1 }, TaskPC.choreographyWait)
  | TaskPC.choreographyWait =>
    match env.choreographyOutcome with
    | Except.ok tokens =>
      ({ sh with auth :=
          { accessToken := some tokens.access_token
            refreshToken := tokens.refresh_token
            tokenExpiry := now + tokens.expires_in * 1000 } },
        TaskPC.finished (Except.ok tokens.access_token))
    | Except.error e => (sh, TaskPC.finished (Except.error e))
  | TaskPC.finished r => (sh, TaskPC.finished r)

/-- Which of the two overlapping callers runs next. -/
inductive TaskId where
  | a
  | b
deriving DecidableEq, Repr

/-- Two overlapping `getAccessToken()` calls over one shared
`LegrandAuth` instance. -/
structure TwoTasks where
  shared : SharedState
  pcA : TaskPC
  pcB : TaskPC
deriving DecidableEq, Repr

/-- Run the scheduled task for one atomic segment. -/
def stepOne (email password : String) (now : Int) (envA envB : TaskEnv)
    (cfg : TwoTasks) : TaskId → TwoTasks
  | TaskId.a =>
    let (sh, pc) := stepTask email password now envA cfg.shared cfg.pcA
    { cfg with shared := sh, pcA := pc }
  | TaskId.b =>
    let (sh, pc) := stepTask email password now envB cfg.shared cfg.pcB
    { cfg with shared := sh, pcB := pc }

/-- Run a whole schedule of atomic segments. -/
def runSchedule (email password : String) (now : Int) (envA envB : TaskEnv)
    (cfg : TwoTasks) (schedule : List TaskId) : TwoTasks :=
  schedule.foldl (stepOne email password now envA envB) cfg

/-- Both callers start with the empty cache: no token ever stored, no
refresh token, both promises just created. -/
def emptyStart : TwoTasks :=
  { shared := { auth := { accessToken := none, refreshToken := none, tokenExpiry := 0 }
                authRuns := 0 }
    pcA := TaskPC.ready
    pcB := TaskPC.ready }

/-- A choreography outcome delivering the given access token with a
one-hour lifetime. -/
def freshTokens (tok : String) : TaskEnv :=
  { refreshOutcome := Except.error "refresh not attempted"
    choreographyOutcome :=
      Except.ok { access_token := tok, refresh_token := some ("r-" ++ tok), expires_in := 3600 } }

/-! ## Validation of the SHA-256 embedding -/

/-- The embedded SHA-256 reproduces the FIPS 180-4 digest of the empty
message. -/
theorem sha256_empty_message_vector :
    sha256 [] =
      [0xe3, 0xb0, 0xc4, 0x42, 0x98, 0xfc, 0x1c, 0x14,
       0x9a, 0xfb, 0xf4, 0xc8, 0x99, 0x6f, 0xb9, 0x24,
       0x27, 0xae, 0x41, 0xe4, 0x64, 0x9b, 0x93, 0x4c,
       0xa4, 0x95, 0x99, 0x1b, 0x78, 0x52, 0xb8, 0x55] := by
  decide

/-! ## Theorems for the claims -/

/-- C9: for every integer level, `setBrightness` clamps the transmitted
level into [0, 100]; level 150 is sent as 100, level -5 as 0; a clamped
level of 0 is transmitted with state `"off"` and any positive clamped
level with state `"on"`. -/
theorem setBrightness_clamps_level (level : Int) :
    0 ≤ (setBrightnessCommand level).2 ∧
    (setBrightnessCommand level).2 ≤ 100 ∧
    ((setBrightnessCommand level).1 = "on" ↔ 0 < (setBrightnessCommand level).2) ∧
    ((setBrightnessCommand level).1 = "off" ↔ (setBrightnessCommand level).2 = 0) ∧
    setBrightnessCommand 150 = ("on", 100) ∧
    setBrightnessCommand (-5) = ("off", 0) := by
  refine ⟨le_max_left 0 _, max_le (by norm_num) (min_le_left _ _), ?_, ?_, by decide, by decide⟩
  · simp only [setBrightnessCommand]
    by_cases h : clampedLevel level > 0 <;> simp [h]
  · simp only [setBrightnessCommand]
    have h0 : 0 ≤ clampedLevel level := le_max_left 0 _
    by_cases h : clampedLevel level > 0 <;> simp [h] <;> omega

/-- C4: with a manually supplied token that has expired (past the
60-second margin) and no email/password credentials, the code slips
through `ensureAuthenticated` without any error — the claimed
`NoCredentialsError` is raised only when no manual token was ever set —
and `getAccessToken` then serves the stale manual token to
`makeRequest`. -/
theorem expired_manual_token_proceeds :
    ensureAuthenticated false (some "manual-token") 1000000 2000000
        (Except.error "not consulted") = Except.ok () ∧
    apiGetAccessToken false (Except.error "not consulted") (some "manual-token") =
      Except.ok "manual-token" ∧
    ensureAuthenticated false none 0 0 (Except.error "not consulted") =
      Except.error ("No authentication available. " ++
        "Please provide email/password in config or set an access token manually.") := by
  decide

/-- C3: a poll iteration hitting a credential-related error (message
containing `401` or `auth`) merely returns from `pollDeviceStatus`: the
interval handle survives untouched, so the next tick initiates another
iteration — the loop is not halted (only `stopPolling` clears the
handle); a non-credential failure lets the iteration continue with the
remaining devices. -/
theorem poll_not_halted_by_credential_error :
    isCredentialError "HTTP 401: Unauthorized" = true ∧
    pollDeviceStatus { pollingActive := true }
        [("d1", PollResult.errorMsg "HTTP 401: Unauthorized"),
         ("d2", PollResult.stateOk true none)] =
      ({ pollingActive := true }, ["d1"]) ∧
    nextTickPolls (pollDeviceStatus { pollingActive := true }
        [("d1", PollResult.errorMsg "HTTP 401: Unauthorized")]).1 = true ∧
    nextTickPolls (stopPolling { pollingActive := true }) = false ∧
    isCredentialError "connect ETIMEDOUT" = false ∧
    pollDeviceStatus { pollingActive := true }
        [("d1", PollResult.errorMsg "connect ETIMEDOUT"),
         ("d2", PollResult.stateOk true none)] =
      ({ pollingActive := true }, ["d1", "d2"]) := by
  decide

/-- C10: `setState` rejects exactly when `ensureAuthenticated` rejected;
once authentication succeeded it always resolves, to `true` exactly when
the token was produced and the HTTP exchange returned a 2xx status, and
to `false` on a non-2xx status or a transport failure; the response body
is never inspected (the resolution is unchanged under any body). -/
theorem setState_resolution (tokenOutcome : Except String String) (out : HttpOutcome) :
    (∀ e, setState (Except.error e) tokenOutcome out = Except.error e) ∧
    setState (Except.ok ()) tokenOutcome out =
      Except.ok (requestSucceeds tokenOutcome out) ∧
    (∀ status data data',
      setState (Except.ok ()) tokenOutcome (HttpOutcome.response status data) =
        setState (Except.ok ()) tokenOutcome (HttpOutcome.response status data')) := by
  refine ⟨fun e => rfl, ?_, ?_⟩
  · cases tokenOutcome with
    | error e => rfl
    | ok tok =>
      cases out with
      | networkFailure m => rfl
      | response status data =>
        by_cases h : 200 ≤ status ∧ status < 300 <;>
          simp [setState, makeRequest, requestSucceeds, h]
  · intro status data data'
    cases tokenOutcome with
    | error e => rfl
    | ok tok =>
      by_cases h : 200 ≤ status ∧ status < 300 <;>
        simp [setState, makeRequest, h]

/-- C1 counterexample: two overlapping `getAccessToken()` calls on an
empty cache, interleaved as the event loop allows (both run their cache
check before either attempt completes), execute TWO login
choreographies and settle with two different tokens — refuting "exactly
one login choreography executes and every caller receives the same
resulting token". -/
theorem concurrent_getAccessToken_duplicates_login :
    ((runSchedule "user@example.com" "hunter2" 0
        (freshTokens "tokA") (freshTokens "tokB") emptyStart
        [TaskId.a, TaskId.b, TaskId.a, TaskId.b]).shared.authRuns = 2 ∧
      (runSchedule "user@example.com" "hunter2" 0
        (freshTokens "tokA") (freshTokens "tokB") emptyStart
        [TaskId.a, TaskId.b, TaskId.a, TaskId.b]).pcA =
          TaskPC.finished (Except.ok "tokA") ∧
      (runSchedule "user@example.com" "hunter2" 0
        (freshTokens "tokA") (freshTokens "tokB") emptyStart
        [TaskId.a, TaskId.b, TaskId.a, TaskId.b]).pcB =
          TaskPC.finished (Except.ok "tokB")) ∧
    "tokA" ≠ "tokB" := by
  decide

/-- C1 amended: `getAccessToken()` has no single-flight gate — every
overlapping caller whose cache check runs before an attempt completes
starts its own login choreography and receives its own attempt's token;
a single choreography with a shared token is guaranteed only when one
call finishes before the next starts. -/
theorem concurrent_getAccessToken_one_login_per_overlapping_caller
    (tokA tokB : String) :
    ((runSchedule "user@example.com" "hunter2" 0
        (freshTokens tokA) (freshTokens tokB) emptyStart
        [TaskId.a, TaskId.b, TaskId.a, TaskId.b]).shared.authRuns = 2 ∧
      (runSchedule "user@example.com" "hunter2" 0
        (freshTokens tokA) (freshTokens tokB) emptyStart
        [TaskId.a, TaskId.b, TaskId.a, TaskId.b]).pcA =
          TaskPC.finished (Except.ok tokA) ∧
      (runSchedule "user@example.com" "hunter2" 0
        (freshTokens tokA) (freshTokens tokB) emptyStart
        [TaskId.a, TaskId.b, TaskId.a, TaskId.b]).pcB =
          TaskPC.finished (Except.ok tokB)) ∧
    ((runSchedule "user@example.com" "hunter2" 0
        (freshTokens tokA) (freshTokens tokB) emptyStart
        [TaskId.a, TaskId.a, TaskId.b]).shared.authRuns = 1 ∧
      (runSchedule "user@example.com" "hunter2" 0
        (freshTokens tokA) (freshTokens tokB) emptyStart
        [TaskId.a, TaskId.a, TaskId.b]).pcA =
          TaskPC.finished (Except.ok tokA) ∧
      (runSchedule "user@example.com" "hunter2" 0
        (freshTokens tokA) (freshTokens tokB) emptyStart
        [TaskId.a, TaskId.a, TaskId.b]).pcB =
          TaskPC.finished (Except.ok tokA)) :=
  ⟨⟨rfl, rfl, rfl⟩, ⟨rfl, rfl, rfl⟩⟩

/-- C2 counterexample: for the verifier generated from 32 zero random
bytes, the challenge computed by `generateCodeChallenge` is the
base64url SHA-256 of the verifier's base64url-encoded STRING
(externally checked value `DwBz...`), which differs from the base64url
SHA-256 of the original 32 raw bytes (externally checked value
`Zmh6...`) that the claim asserts. -/
theorem challenge_not_hash_of_raw_bytes :
    generateCodeVerifier (List.replicate 32 0) =
      "AAAAAAAAAAAAAAAAAAAAAAAAAAAAAAAAAAAAAAAAAAA" ∧
    generateCodeChallenge (generateCodeVerifier (List.replicate 32 0)) =
      "DwBzhbb51LfusnSGBa_hqYSgo7-j8BTQnip4TOnlzRo" ∧
    specChallengeFromRawBytes (List.replicate 32 0) =
      "Zmh6rfhivXdsj8GLjp-OIAiXFIVu4jOzkCpZHQ1fKSU" ∧
    generateCodeChallenge (generateCodeVerifier (List.replicate 32 0)) ≠
      specChallengeFromRawBytes (List.replicate 32 0) := by
  decide

/-- C2 amended: for every generated PKCE pair, the challenge equals the
base64url (no padding) SHA-256 digest of the UTF-8/ASCII bytes of the
verifier's base64url-encoded string representation (the RFC 7636
`BASE64URL(SHA256(ASCII(code_verifier)))`), not of the original raw
bytes; on the fixed vector verifier `"A"*43` it equals the externally
computed digest. -/
theorem challenge_is_hash_of_encoded_verifier (randomBytes : List Nat) :
    generateCodeChallenge (generateCodeVerifier randomBytes) =
      base64urlNoPad (sha256 (asciiBytes (generateCodeVerifier randomBytes))) ∧
    generateCodeChallenge "AAAAAAAAAAAAAAAAAAAAAAAAAAAAAAAAAAAAAAAAAAA" =
      "DwBzhbb51LfusnSGBa_hqYSgo7-j8BTQnip4TOnlzRo" :=
  ⟨rfl, by decide⟩

/-- C7: a credential-submission response with HTTP 200 and a JSON body
carrying an error status or message — e.g. `{"status":"400","message":
"invalid credentials"}` — settles as the provider-asserted
invalid-credentials rejection carrying the server-supplied message (not
the transport-failure kind), and a status other than 200 settles as the
same rejection kind. -/
theorem submitCredentials_rejects_invalid_credentials :
    (∀ cookies,
      submitCredentialsOutcome 200
          "\x7b\"status\":\"400\",\"message\":\"invalid credentials\"\x7d"
          (ParsedBody.json (some "400") (some "invalid credentials")) cookies =
        SubmitOutcome.credentialError "Login failed: invalid credentials") ∧
    (∀ status data parsed cookies, status ≠ 200 →
      submitCredentialsOutcome status data parsed cookies =
        SubmitOutcome.credentialError
          ("Credential submission failed: " ++ toString status ++ " - " ++ data)) := by
  refine ⟨fun cookies => rfl, ?_⟩
  intro status data parsed cookies h
  simp [submitCredentialsOutcome, h]

/-- C7 witness: the theorem applied at a concrete non-200 response. -/
theorem submitCredentials_rejects_invalid_credentials_witness :
    submitCredentialsOutcome 403 "Forbidden" ParsedBody.notJson [] =
      SubmitOutcome.credentialError "Credential submission failed: 403 - Forbidden" :=
  submitCredentials_rejects_invalid_credentials.2 403 "Forbidden"
    ParsedBody.notJson [] (by decide)

/-- C8: merging `{a=1}` with `["a=2; Path=/", "b=3; HttpOnly"]`
serializes to `"a=2; b=3"`; in general the portion of a raw header
before the first `;` is the pair, whose name is the portion before the
first `=`: a jar entry with that name is overwritten in place, and
otherwise the pair is appended. -/
theorem cookie_jar_merge :
    serializeJar (mergeCookies ["a=1"] ["a=2; Path=/", "b=3; HttpOnly"]) = "a=2; b=3" ∧
    (∀ (jar : List String) (header : String) (i : Nat),
      findIndex (fun c => strStartsWith c
          (firstSplitPart '=' (firstSplitPart ';' header) ++ "=")) jar = some i →
      mergeCookie jar header = jar.set i (firstSplitPart ';' header)) ∧
    (∀ (jar : List String) (header : String),
      findIndex (fun c => strStartsWith c
          (firstSplitPart '=' (firstSplitPart ';' header) ++ "=")) jar = none →
      mergeCookie jar header = jar ++ [firstSplitPart ';' header]) := by
  refine ⟨by decide, ?_, ?_⟩
  · intro jar header i h
    simp [mergeCookie, h]
  · intro jar header h
    simp [mergeCookie, h]

/-- C8 witness: both merge branches applied at concrete inputs. -/
theorem cookie_jar_merge_witness :
    mergeCookie ["a=1"] "a=2; Path=/" = ["a=2"] ∧
    mergeCookie ["a=2"] "b=3; HttpOnly" = ["a=2", "b=3"] :=
  ⟨cookie_jar_merge.2.1 ["a=1"] "a=2; Path=/" 0 (by decide),
   cookie_jar_merge.2.2 ["a=2"] "b=3; HttpOnly" (by decide)⟩

/-- C5: with a cached token, `getAccessToken` performs no network
attempt exactly when `Date.now()` is strictly below the stored expiry
minus 60000 ms — and then it returns the cached token and leaves the
state untouched, so a second call inside the window costs no further
round trip; a token whose expiry is `now + 30s` is inside the margin
and triggers a refresh or re-authentication attempt. -/
theorem getAccessToken_cache_policy (email password tok : String)
    (st : AuthState) (now : Int) (ro co : Except String TokenResponse)
    (htok : st.accessToken = some tok)
    (hemail : email ≠ "") (hpw : password ≠ "") :
    ((getAccessToken email password st now ro co).2.1 = [] ↔
      now < st.tokenExpiry - 60000) ∧
    (now < st.tokenExpiry - 60000 →
      getAccessToken email password st now ro co = (Except.ok tok, [], st)) ∧
    (st.tokenExpiry = now + 30000 →
      (getAccessToken email password st now ro co).2.1 ≠ []) := by
  by_cases h : now < st.tokenExpiry - 60000
  · refine ⟨by simp [getAccessToken, htok, h], fun _ => by simp [getAccessToken, htok, h],
      fun hex => absurd h (by rw [hex]; omega)⟩
  · have hc : ¬ (st.accessToken.isSome ∧ now < st.tokenExpiry - 60000) :=
      fun hx => h hx.2
    have hne : (getAccessToken email password st now ro co).2.1 ≠ [] := by
      simp only [getAccessToken, if_neg hc]
      cases hrt : st.refreshToken with
      | none =>
        cases co with
        | ok t => simp [hrt, authenticate, hemail, hpw]
        | error err => simp [hrt, authenticate, hemail, hpw]
      | some rt =>
        cases ro with
        | ok t => simp [hrt, refreshAccessToken]
        | error err =>
          cases co with
          | ok t => simp [hrt, refreshAccessToken, authenticate, hemail, hpw]
          | error err2 => simp [hrt, refreshAccessToken, authenticate, hemail, hpw]
    exact ⟨⟨fun he => absurd he hne, fun hlt => absurd hlt h⟩,
      fun hlt => absurd hlt h, fun _ => hne⟩

/-- C5 witness: the theorem applied at a concrete valid cached token —
the call is a cache hit with no network attempt. -/
theorem getAccessToken_cache_policy_witness :
    getAccessToken "e" "p"
        { accessToken := some "t", refreshToken := none, tokenExpiry := 100000 } 0
        (Except.error "r") (Except.error "c") =
      (Except.ok "t", [],
        { accessToken := some "t", refreshToken := none, tokenExpiry := 100000 }) :=
  (getAccessToken_cache_policy "e" "p" "t"
    { accessToken := some "t", refreshToken := none, tokenExpiry := 100000 } 0
    (Except.error "r") (Except.error "c") rfl (by decide) (by decide)).2.1 (by decide)

/-- C6: with an invalid cached token and a refresh token present,
`getAccessToken` attempts the refresh first; a refresh failure is not
propagated — the full login choreography runs next and the caller
settles with the choreography's outcome, its failure alone propagating
as fatal — while a refresh success makes the refresh the only
attempt. -/
theorem getAccessToken_refresh_fallback (email password rt : String)
    (st : AuthState) (now : Int) (e : String)
    (co : Except String TokenResponse)
    (hnv : ¬ (st.accessToken.isSome ∧ now < st.tokenExpiry - 60000))
    (hrt : st.refreshToken = some rt)
    (hemail : email ≠ "") (hpw : password ≠ "") :
    (getAccessToken email password st now (Except.error e) co).2.1 =
      [NetAction.refreshCall, NetAction.loginChoreography] ∧
    (∀ tokens, co = Except.ok tokens →
      (getAccessToken email password st now (Except.error e) co).1 =
        Except.ok tokens.access_token) ∧
    (∀ err, co = Except.error err →
      (getAccessToken email password st now (Except.error e) co).1 =
        Except.error err) ∧
    (∀ tokens,
      (getAccessToken email password st now (Except.ok tokens) co).2.1 =
        [NetAction.refreshCall]) := by
  refine ⟨?_, ?_, ?_, ?_⟩
  · simp only [getAccessToken, if_neg hnv]
    cases co with
    | ok t => simp [hrt, refreshAccessToken, authenticate, hemail, hpw]
    | error err => simp [hrt, refreshAccessToken, authenticate, hemail, hpw]
  · intro tokens hco
    subst hco
    simp [getAccessToken, if_neg hnv, hrt, refreshAccessToken, authenticate, hemail, hpw]
  · intro err hco
    subst hco
    simp [getAccessToken, if_neg hnv, hrt, refreshAccessToken, authenticate, hemail, hpw]
  · intro tokens
    simp [getAccessToken, if_neg hnv, hrt, refreshAccessToken]

/-- C6 witness: the theorem applied at a concrete expired token with a
refresh token whose refresh attempt fails — the refresh is attempted
first and the login choreography follows. -/
theorem getAccessToken_refresh_fallback_witness :
    (getAccessToken "e" "p"
        { accessToken := some "t", refreshToken := some "r", tokenExpiry := 30000 } 0
        (Except.error "revoked")
        (Except.ok
          { access_token := "t3", refresh_token := some "r3", expires_in := 3600 })).2.1 =
      [NetAction.refreshCall, NetAction.loginChoreography] :=
  (getAccessToken_refresh_fallback "e" "p" "r"
    { accessToken := some "t", refreshToken := some "r", tokenExpiry := 30000 } 0
    "revoked"
    (Except.ok { access_token := "t3", refresh_token := some "r3", expires_in := 3600 })
    (by decide) rfl (by decide) (by decide)).1

end LegrandRadiant
